import Mathlib

/-!
Shallow embedding of the per-frame resource pipeline and render-item draw
system of `Week4-1-ShapesAppUsingDescriptorTable.cpp` (a DirectX 12 shapes
demo), together with proofs of the specification claims about it.

Matrices are embedded over `ℚ`: the claims under consideration concern which
matrices are packed where (transposition, buffer offsets, dirty tracking),
not floating-point rounding.  Machine `UINT` arithmetic is embedded as `Nat`
with explicit reduction modulo `2 ^ 32` where the source multiplies two
32-bit values.
-/

namespace ShapesApp

/-- `const int gNumFrameResources = 3;` — the frame-resource ring size. -/
def gNumFrameResources : Nat := 3

/-- 32-bit unsigned arithmetic wraps modulo this constant. -/
def uintMod : Nat := 2 ^ 32

/-- A 4x4 matrix (`XMFLOAT4X4`), embedded over the rationals. -/
def Mat4 : Type := Fin 4 → Fin 4 → ℚ

/-- Matrix transposition (`XMMatrixTranspose`). -/
def Mat4.transpose (M : Mat4) : Mat4 := fun i j => M j i

/-- `MathHelper::Identity4x4()`. -/
def Mat4.identity : Mat4 := fun i j => if i = j then 1 else 0

/-- Overwrite the entry of a matrix at row `r`, column `c`
(the source's `MatTransform(r, c) = v` assignment). -/
def Mat4.setEntry (M : Mat4) (r c : Fin 4) (v : ℚ) : Mat4 :=
  fun i j => if i = r ∧ j = c then v else M i j

/-- `XMFLOAT3`. -/
structure Float3 where
  x : ℚ
  y : ℚ
  z : ℚ
deriving DecidableEq

/-- `XMFLOAT4`. -/
structure Float4 where
  x : ℚ
  y : ℚ
  z : ℚ
  w : ℚ
deriving DecidableEq

/-- The `RenderLayer` enum, in the source's declaration order
(`Opaque = 0, Transparent, AlphaTested, AlphaTestedTreeSprites`). -/
inductive RenderLayer : Type where
  | Opaque
  | Transparent
  | AlphaTested
  | AlphaTestedTreeSprites
deriving DecidableEq, Repr

/-- The `Material` record of `Common/d3dUtil.h` (declared outside `src/`;
fields reconstructed from their uses in the source and the spec's
MaterialTable description: name, constant-buffer slot, descriptor-table slot,
shading parameters, UV transform and the ring-sized dirty counter). -/
structure Material where
  Name : String
  MatCBIndex : Nat
  DiffuseSrvHeapIndex : Nat
  NormalSrvHeapIndex : Nat := 0
  DiffuseAlbedo : Float4
  FresnelR0 : Float3
  Roughness : ℚ
  MatTransform : Mat4 := Mat4.identity
  NumFramesDirty : Nat := gNumFrameResources

/-- The source's `RenderItem` structure.  `Mat` holds the referenced
`Material` record (the embedding of the source's non-owning pointer into
`mMaterials`). -/
structure RenderItem where
  World : Mat4 := Mat4.identity
  TWorld : Mat4 := Mat4.identity
  TexTransform : Mat4 := Mat4.identity
  NumFramesDirty : Nat := gNumFrameResources
  ObjCBIndex : Nat
  Mat : Material
  IndexCount : Nat := 0
  StartIndexLocation : Nat := 0
  BaseVertexLocation : Int := 0

/-- The `ObjectConstants` record uploaded per render item
(`Common/FrameResource.h`): world matrix, inverse-transpose world matrix and
texture transform, each stored transposed by `UpdateObjectCBs`. -/
structure ObjectConstants where
  World : Mat4
  TWorld : Mat4
  TexTransform : Mat4

/-- The `MaterialConstants` record uploaded per material
(`Common/FrameResource.h`). -/
structure MaterialConstants where
  DiffuseAlbedo : Float4
  FresnelR0 : Float3
  Roughness : ℚ
  MatTransform : Mat4

/-- `UploadBuffer::CopyData(index, data)`: overwrite one element of a
constant buffer, embedded as a function from element index to record. -/
def copyData {α : Type} (buf : Nat → α) (index : Nat) (data : α) : Nat → α :=
  fun i => if i = index then data else buf i

/-- The `ObjectConstants` record computed by the body of
`ShapesApp::UpdateObjectCBs` for one dirty item: the transposes of the
item's world matrix, of `MathHelper::InverseTranspose(world)` and of the
item's texture transform.  `invTrans` stands for
`MathHelper::InverseTranspose`, which lives in `Common/MathHelper.h`
outside `src/`; all results below hold for an arbitrary such function. -/
def packObjectConstants (invTrans : Mat4 → Mat4) (e : RenderItem) : ObjectConstants :=
  { World := e.World.transpose
    TWorld := (invTrans e.World).transpose
    TexTransform := e.TexTransform.transpose }

/-- `ShapesApp::UpdateObjectCBs`, one pass over `mAllRitems`: each item with
`NumFramesDirty > 0` has its packed constants copied into the current object
constant buffer at offset `ObjCBIndex` and its dirty counter decremented;
clean items and their buffer entries are left alone.  Returns the updated
item list together with the updated buffer. -/
def UpdateObjectCBs (invTrans : Mat4 → Mat4) :
    List RenderItem → (Nat → ObjectConstants) →
      List RenderItem × (Nat → ObjectConstants)
  | [], buf => ([], buf)
  | e :: rest, buf =>
    if e.NumFramesDirty > 0 then
      let buf1 := copyData buf e.ObjCBIndex (packObjectConstants invTrans e)
      let r := UpdateObjectCBs invTrans rest buf1
      ({ e with NumFramesDirty := e.NumFramesDirty - 1 } :: r.1, r.2)
    else
      let r := UpdateObjectCBs invTrans rest buf
      (e :: r.1, r.2)

/-- The `MaterialConstants` record computed by the body of
`ShapesApp::UpdateMaterialCBs` for one dirty material. -/
def packMaterialConstants (m : Material) : MaterialConstants :=
  { DiffuseAlbedo := m.DiffuseAlbedo
    FresnelR0 := m.FresnelR0
    Roughness := m.Roughness
    MatTransform := m.MatTransform.transpose }

/-- `ShapesApp::UpdateMaterialCBs`, one pass over `mMaterials`.  The source
iterates an `unordered_map` in unspecified order; the embedding takes the
materials as a list in an arbitrary order, and every result below holds for
any order. -/
def UpdateMaterialCBs :
    List Material → (Nat → MaterialConstants) →
      List Material × (Nat → MaterialConstants)
  | [], buf => ([], buf)
  | m :: rest, buf =>
    if m.NumFramesDirty > 0 then
      let buf1 := copyData buf m.MatCBIndex (packMaterialConstants m)
      let r := UpdateMaterialCBs rest buf1
      ({ m with NumFramesDirty := m.NumFramesDirty - 1 } :: r.1, r.2)
    else
      let r := UpdateMaterialCBs rest buf
      (m :: r.1, r.2)

/-- The water-material mutation in `ShapesApp::AnimateMaterials`:
`tu -= 0.1f * dt`, `tv += 0.5f` when `tv <= 0`, write both entries back and
set `NumFramesDirty = gNumFrameResources`. -/
def animateWaterMat (dt : ℚ) (m : Material) : Material :=
  let tu := m.MatTransform 3 0 - (0.1 : ℚ) * dt
  let tv0 := m.MatTransform 3 1
  let tv := if tv0 ≤ 0 then tv0 + (0.5 : ℚ) else tv0
  { m with
    MatTransform := (m.MatTransform.setEntry 3 0 tu).setEntry 3 1 tv
    NumFramesDirty := gNumFrameResources }

/-- The gutsy-material mutation in `ShapesApp::AnimateMaterials`:
`tu2 += 0.1f * dt`, `tv2 += 0.1f * dt`, write back and set
`NumFramesDirty = gNumFrameResources`. -/
def animateGutsyMat (dt : ℚ) (m : Material) : Material :=
  let tu := m.MatTransform 3 0 + (0.1 : ℚ) * dt
  let tv := m.MatTransform 3 1 + (0.1 : ℚ) * dt
  { m with
    MatTransform := (m.MatTransform.setEntry 3 0 tu).setEntry 3 1 tv
    NumFramesDirty := gNumFrameResources }

/-- `ShapesApp::AnimateMaterials`: mutates the two materials named
`"water0"` and `"gutsy"` (looked up by name in `mMaterials`), leaving all
others untouched. -/
def AnimateMaterials (dt : ℚ) (mats : List Material) : List Material :=
  mats.map fun m =>
    if m.Name = "water0" then animateWaterMat dt m
    else if m.Name = "gutsy" then animateGutsyMat dt m
    else m

/-- The CPU-visible per-frame state of the app: the ring index, the fence
bookkeeping, the render items and materials, the three ring slots' constant
buffers (indexed slot → element) and the layer partition.  Pass constants,
camera and input state are out of the claims' scope and omitted. -/
structure AppState where
  currFrameResourceIndex : Nat
  completedFence : Nat
  currentFence : Nat
  fences : Nat → Nat
  allRitems : List RenderItem
  materials : List Material
  objectCB : Nat → Nat → ObjectConstants
  materialCB : Nat → Nat → MaterialConstants
  ritemLayer : RenderLayer → List RenderItem

/-- The wait condition of `ShapesApp::Update`:
`mCurrFrameResource->Fence != 0 && mFence->GetCompletedValue() < mCurrFrameResource->Fence`. -/
def mustWait (fence observed : Nat) : Bool :=
  fence != 0 && decide (observed < fence)

/-- The fence completion counter observed once the wait of
`ShapesApp::Update` returns: when the thread blocks, it resumes as soon as
the GPU signals the slot's fence value; otherwise the counter is the value
read by `GetCompletedValue()` (the external input `observed`). -/
def waitResult (fence observed : Nat) : Nat :=
  if mustWait fence observed then fence else observed

/-- Lines 247-259 of `ShapesApp::Update`: cycle to the next ring slot and, if
that slot's fence is nonzero and not yet completed, block until the GPU has
signaled it.  `observed` is the value of `mFence->GetCompletedValue()`. -/
def advanceAndWait (observed : Nat) (s : AppState) : AppState :=
  let idx := (s.currFrameResourceIndex + 1) % gNumFrameResources
  { s with
    currFrameResourceIndex := idx
    completedFence := waitResult (s.fences idx) observed }

/-- The `AnimateMaterials(gt)` call inside `ShapesApp::Update`. -/
def applyAnimateMaterials (dt : ℚ) (s : AppState) : AppState :=
  { s with materials := AnimateMaterials dt s.materials }

/-- The `UpdateObjectCBs(gt); UpdateMaterialCBs(gt)` calls inside
`ShapesApp::Update`: both write into the current ring slot's buffers.
(`UpdateMainPassCB` rewrites the pass constants, which no claim is about.) -/
def applyUpdateCBs (invTrans : Mat4 → Mat4) (s : AppState) : AppState :=
  let idx := s.currFrameResourceIndex
  let ro := UpdateObjectCBs invTrans s.allRitems (s.objectCB idx)
  let rm := UpdateMaterialCBs s.materials (s.materialCB idx)
  { s with
    allRitems := ro.1
    materials := rm.1
    objectCB := fun j => if j = idx then ro.2 else s.objectCB j
    materialCB := fun j => if j = idx then rm.2 else s.materialCB j }

/-- `ShapesApp::Update` (minus camera/keyboard handling, which the spec
scopes out): advance the ring and wait on the slot's fence, animate the two
scrolling materials, then propagate dirty object and material constants into
the current slot's buffers. -/
def Update (invTrans : Mat4 → Mat4) (dt : ℚ) (observed : Nat) (s : AppState) : AppState :=
  applyUpdateCBs invTrans (applyAnimateMaterials dt (advanceAndWait observed s))

/-- One update cycle with no further mutation: the ring advance/wait and the
dirty-propagation copies of `ShapesApp::Update`, without the
`AnimateMaterials` mutation step. -/
def updateCycleNoMutation (invTrans : Mat4 → Mat4) (observed : Nat) (s : AppState) : AppState :=
  applyUpdateCBs invTrans (advanceAndWait observed s)

/-- The address and stride parameters entering `ShapesApp::DrawRenderItems`
and `ShapesApp::Draw`.  `objCBByteSize` and `matCBByteSize` are the values
of `d3dUtil::CalcConstantBufferByteSize(sizeof ...)` (the aligned strides;
the helper lives in `Common/d3dUtil.h` outside `src/`, so the strides are
kept as parameters — the claims hold for any value). -/
structure DrawParams where
  srvHeapStart : Nat
  cbvSrvDescriptorSize : Nat
  objectCBBase : Nat
  materialCBBase : Nat
  objCBByteSize : Nat
  matCBByteSize : Nat

/-- One recorded `DrawIndexedInstanced` call together with the root bindings
set for it by `ShapesApp::DrawRenderItems`. -/
structure DrawCmd where
  texDescriptor : Nat
  objCBAddress : Nat
  matCBAddress : Nat
  indexCount : Nat
  instanceCount : Nat
  startIndexLocation : Nat
  baseVertexLocation : Int

/-- The loop body of `ShapesApp::DrawRenderItems` for one item: offset the
descriptor handle by `DiffuseSrvHeapIndex` increments, compute
`objectCB base + ObjCBIndex * objCBByteSize` and
`matCB base + MatCBIndex * matCBByteSize` — the index-times-stride products
are computed in 32-bit `UINT` arithmetic, hence reduced modulo `2 ^ 32`
before being added to the 64-bit base address — and issue
`DrawIndexedInstanced(IndexCount, 1, StartIndexLocation, BaseVertexLocation, 0)`. -/
def drawRenderItem (p : DrawParams) (ri : RenderItem) : DrawCmd :=
  { texDescriptor := p.srvHeapStart + ri.Mat.DiffuseSrvHeapIndex * p.cbvSrvDescriptorSize
    objCBAddress := p.objectCBBase + ri.ObjCBIndex * p.objCBByteSize % uintMod
    matCBAddress := p.materialCBBase + ri.Mat.MatCBIndex * p.matCBByteSize % uintMod
    indexCount := ri.IndexCount
    instanceCount := 1
    startIndexLocation := ri.StartIndexLocation
    baseVertexLocation := ri.BaseVertexLocation }

/-- `ShapesApp::DrawRenderItems`: record one draw per item, in list order. -/
def DrawRenderItems (p : DrawParams) (ritems : List RenderItem) : List DrawCmd :=
  ritems.map (drawRenderItem p)

/-- The draw-call sequence recorded by `ShapesApp::Draw` lines 301-311: the
`Opaque` layer first, then `AlphaTested`, then `AlphaTestedTreeSprites`,
then `Transparent`, each layer through `DrawRenderItems` with no reordering. -/
def recordFrameDraws (p : DrawParams) (layer : RenderLayer → List RenderItem) : List DrawCmd :=
  DrawRenderItems p (layer RenderLayer.Opaque) ++
    DrawRenderItems p (layer RenderLayer.AlphaTested) ++
      DrawRenderItems p (layer RenderLayer.AlphaTestedTreeSprites) ++
        DrawRenderItems p (layer RenderLayer.Transparent)

/-- The observable events of one `ShapesApp::Draw` call: which ring slot's
command allocator was reset (`mCurrFrameResource->CmdListAlloc->Reset()`),
that slot's stored fence value and the last observed completion counter at
that moment, the recorded draw calls, and the fence value whose GPU-side
signal is scheduled after the submitted work. -/
structure FrameLog where
  allocatorResetSlot : Nat
  fenceAtReset : Nat
  completedAtReset : Nat
  draws : List DrawCmd
  signaledFence : Nat

/-- `ShapesApp::Draw`: reset the current slot's command allocator, record the
per-layer draws, submit, then advance the global fence counter by one, store
the new value as the slot's fence and schedule `Signal` of that value. -/
def Draw (p : DrawParams) (s : AppState) : AppState × FrameLog :=
  let idx := s.currFrameResourceIndex
  let cmds := recordFrameDraws p s.ritemLayer
  let newFence := s.currentFence + 1
  ({ s with
      currentFence := newFence
      fences := fun j => if j = idx then newFence else s.fences j },
   { allocatorResetSlot := idx
     fenceAtReset := s.fences idx
     completedAtReset := s.completedFence
     draws := cmds
     signaledFence := newFence })

/-- One full frame as driven by the framework loop.
Modelled from the spec: the driving loop (`D3DApp::Run` in
`Common/d3dApp.cpp`, not under `src/`) calls `Update` and then `Draw` once
per frame — the spec's FrameScheduler "selects the next ring slot, waits on
its fence ..., records the command list, submits, signals a new fence
value". -/
def frame (invTrans : Mat4 → Mat4) (p : DrawParams) (dt : ℚ) (observed : Nat)
    (s : AppState) : AppState × FrameLog :=
  Draw p (Update invTrans dt observed s)

/-- Run a sequence of frames; each input is the pair of that frame's delta
time and of the fence-completion value the GPU exposes when `Update` reads
it.  Returns the final state and the per-frame logs in order. -/
def runFrames (invTrans : Mat4 → Mat4) (p : DrawParams) :
    List (ℚ × Nat) → AppState → AppState × List FrameLog
  | [], s => (s, [])
  | (dt, observed) :: rest, s =>
    let r := frame invTrans p dt observed s
    let rr := runFrames invTrans p rest r.1
    (rr.1, r.2 :: rr.2)

/-! ### The concrete scene: `BuildMaterials`, `BuildDescriptorHeaps`,
`BuildRenderItems`, `BuildFrameResources` -/

/-- `bricks0` of `ShapesApp::BuildMaterials`. -/
def bricks0 : Material :=
  { Name := "bricks0", MatCBIndex := 0, DiffuseSrvHeapIndex := 0
    DiffuseAlbedo := ⟨1, 1, 1, 1⟩, FresnelR0 := ⟨0.05, 0.05, 0.05⟩
    Roughness := 0.9 }

/-- `stone0` of `ShapesApp::BuildMaterials`. -/
def stone0 : Material :=
  { Name := "stone0", MatCBIndex := 1, DiffuseSrvHeapIndex := 1
    DiffuseAlbedo := ⟨0.8, 0.8, 1, 1⟩, FresnelR0 := ⟨0.2, 0.2, 0.2⟩
    Roughness := 0.9 }

/-- `sand0` of `ShapesApp::BuildMaterials`. -/
def sand0 : Material :=
  { Name := "sand0", MatCBIndex := 2, DiffuseSrvHeapIndex := 2
    DiffuseAlbedo := ⟨1, 1, 1, 1⟩, FresnelR0 := ⟨0.6, 0.6, 0.6⟩
    Roughness := 0.95 }

/-- `gutsy` of `ShapesApp::BuildMaterials`. -/
def gutsy : Material :=
  { Name := "gutsy", MatCBIndex := 3, DiffuseSrvHeapIndex := 3
    DiffuseAlbedo := ⟨1, 1, 1, 1⟩, FresnelR0 := ⟨0.6, 0.6, 0.6⟩
    Roughness := 0.3 }

/-- `Water0` of `ShapesApp::BuildMaterials`. -/
def water0 : Material :=
  { Name := "water0", MatCBIndex := 4, DiffuseSrvHeapIndex := 4
    DiffuseAlbedo := ⟨1, 1, 1, 0.5⟩, FresnelR0 := ⟨1, 1, 1⟩
    Roughness := 1 }

/-- `Ice0` of `ShapesApp::BuildMaterials`. -/
def ice0 : Material :=
  { Name := "ice0", MatCBIndex := 5, DiffuseSrvHeapIndex := 5
    DiffuseAlbedo := ⟨1, 1, 1, 0.8⟩, FresnelR0 := ⟨1, 1, 1⟩
    Roughness := 0.1 }

/-- `flag0` of `ShapesApp::BuildMaterials`. -/
def flag0 : Material :=
  { Name := "flag0", MatCBIndex := 6, DiffuseSrvHeapIndex := 6
    DiffuseAlbedo := ⟨1, 1, 1, 1⟩, FresnelR0 := ⟨0.2, 0.2, 0.2⟩
    Roughness := 0.7 }

/-- `door` of `ShapesApp::BuildMaterials` (textured with `door.dds` via the
`boneTex` texture). -/
def doorMat : Material :=
  { Name := "door", MatCBIndex := 7, DiffuseSrvHeapIndex := 7
    DiffuseAlbedo := ⟨1, 1, 1, 1⟩, FresnelR0 := ⟨0.02, 0.02, 0.02⟩
    Roughness := 0.25 }

/-- `treeSprites` of `ShapesApp::BuildMaterials`. -/
def treeSpritesMat : Material :=
  { Name := "treeSprites", MatCBIndex := 8, DiffuseSrvHeapIndex := 8
    DiffuseAlbedo := ⟨1, 1, 1, 1⟩, FresnelR0 := ⟨0.01, 0.01, 0.01⟩
    Roughness := 0.125 }

/-- `ShapesApp::BuildMaterials`: the nine scene materials, listed in the
order they are inserted into `mMaterials`. -/
def BuildMaterials : List Material :=
  [bricks0, stone0, gutsy, ice0, water0, sand0, flag0, doorMat, treeSpritesMat]

/-- The order in which `ShapesApp::BuildDescriptorHeaps` writes shader
resource views into the SRV heap (texture names as in `LoadTextures`). -/
def srvWriteOrder : List String :=
  ["bricksTex", "stoneTex", "sandTex", "redTex", "waterTex", "iceTex",
   "flagTex", "boneTex", "treeArrayTex"]

/-- The descriptor writes of `ShapesApp::BuildDescriptorHeaps`: starting from
the heap's CPU handle, each texture's view is created at the running handle,
which is then offset by one `mCbvSrvDescriptorSize` increment
(`hDescriptor.Offset(1, mCbvSrvDescriptorSize)`). -/
def writeDescriptors (handle inc : Nat) : List String → List (String × Nat)
  | [] => []
  | t :: rest => (t, handle) :: writeDescriptors (handle + inc) inc rest

/-- `ShapesApp::BuildDescriptorHeaps` as the list of (texture, descriptor
offset) pairs it produces. -/
def BuildDescriptorHeaps (heapStart inc : Nat) : List (String × Nat) :=
  writeDescriptors heapStart inc srvWriteOrder

/-- The texture each material samples, read off `LoadTextures` /
`BuildMaterials`: `bricks0` is the wall texture `bricksTex` (BloodWall.dds),
`gutsy` is `redTex` (gutsy.dds), `door` is `boneTex` (door.dds),
`treeSprites` is `treeArrayTex` (treeArray.dds), and the remaining
materials pair with the same-named textures. -/
def materialTexture : String → String
  | "bricks0" => "bricksTex"
  | "stone0" => "stoneTex"
  | "sand0" => "sandTex"
  | "gutsy" => "redTex"
  | "water0" => "waterTex"
  | "ice0" => "iceTex"
  | "flag0" => "flagTex"
  | "door" => "boneTex"
  | "treeSprites" => "treeArrayTex"
  | _ => ""

/-- The construction-time bookkeeping of one render item in
`ShapesApp::BuildRenderItems`: its source variable name, material, submesh
and render layer.  The world matrices are hand-authored scene layout, which
the spec scopes out, and no claim depends on them; they are omitted here. -/
structure SceneEntry where
  itemName : String
  matName : String
  meshName : String
  layer : RenderLayer
deriving DecidableEq

/-- The 51 render items of `ShapesApp::BuildRenderItems`, in construction
order (which is also the order of `ObjCBIndex` assignment and of the pushes
into `mAllRitems`). -/
def sceneEntries : List SceneEntry :=
  [⟨"gridRitem", "sand0", "grid", RenderLayer.Opaque⟩,
   ⟨"gridRitem2", "sand0", "grid2", RenderLayer.Opaque⟩,
   ⟨"leftwallRitem", "bricks0", "box", RenderLayer.Opaque⟩,
   ⟨"rightwallRitem", "bricks0", "box", RenderLayer.Opaque⟩,
   ⟨"upperwallRitem", "bricks0", "box", RenderLayer.Opaque⟩,
   ⟨"lowerwallRitem1", "bricks0", "box", RenderLayer.Opaque⟩,
   ⟨"lowerwallRitem2", "bricks0", "box", RenderLayer.Opaque⟩,
   ⟨"lowerwallRitem3", "bricks0", "box", RenderLayer.Opaque⟩,
   ⟨"leftCylRitem", "stone0", "cylinder", RenderLayer.Opaque⟩,
   ⟨"rightCylRitem", "stone0", "cylinder", RenderLayer.Opaque⟩,
   ⟨"lowerCylRitem", "stone0", "cylinder", RenderLayer.Opaque⟩,
   ⟨"lowerrihtCylRitem", "stone0", "cylinder", RenderLayer.Opaque⟩,
   ⟨"leftConeRitem", "bricks0", "cone", RenderLayer.Opaque⟩,
   ⟨"rightConelRitem", "bricks0", "cone", RenderLayer.Opaque⟩,
   ⟨"lowerConeRitem", "bricks0", "cone", RenderLayer.Opaque⟩,
   ⟨"lowerrihtConeRitem", "bricks0", "cone", RenderLayer.Opaque⟩,
   ⟨"building", "gutsy", "building", RenderLayer.Opaque⟩,
   ⟨"torus", "water0", "torus", RenderLayer.Opaque⟩,
   ⟨"torus1", "water0", "torus", RenderLayer.Opaque⟩,
   ⟨"torus2", "water0", "torus", RenderLayer.Opaque⟩,
   ⟨"torus3", "water0", "torus", RenderLayer.Opaque⟩,
   ⟨"diamond", "ice0", "diamond", RenderLayer.Opaque⟩,
   ⟨"door", "door", "door", RenderLayer.Opaque⟩,
   ⟨"wedge1", "door", "wedge", RenderLayer.Opaque⟩,
   ⟨"prism", "gutsy", "prism", RenderLayer.Opaque⟩,
   ⟨"water", "water0", "water", RenderLayer.Opaque⟩,
   ⟨"maze1", "door", "box", RenderLayer.Opaque⟩,
   ⟨"maze2", "door", "box", RenderLayer.Opaque⟩,
   ⟨"maze3", "door", "box", RenderLayer.Opaque⟩,
   ⟨"maze4", "door", "box", RenderLayer.Opaque⟩,
   ⟨"maze5", "door", "box", RenderLayer.Opaque⟩,
   ⟨"maze6", "door", "box", RenderLayer.Opaque⟩,
   ⟨"maze7", "door", "box", RenderLayer.Opaque⟩,
   ⟨"maze8", "door", "box", RenderLayer.Opaque⟩,
   ⟨"maze9", "door", "box", RenderLayer.Opaque⟩,
   ⟨"maze10", "door", "box", RenderLayer.Opaque⟩,
   ⟨"maze11", "door", "box", RenderLayer.Opaque⟩,
   ⟨"maze12", "door", "box", RenderLayer.Opaque⟩,
   ⟨"maze13", "door", "box", RenderLayer.Opaque⟩,
   ⟨"maze14", "door", "box", RenderLayer.Opaque⟩,
   ⟨"maze15", "door", "box", RenderLayer.Opaque⟩,
   ⟨"maze16", "door", "box", RenderLayer.Opaque⟩,
   ⟨"maze17", "door", "box", RenderLayer.Opaque⟩,
   ⟨"maze18", "door", "box", RenderLayer.Opaque⟩,
   ⟨"maze19", "door", "box", RenderLayer.Opaque⟩,
   ⟨"maze20", "door", "box", RenderLayer.Opaque⟩,
   ⟨"maze21", "door", "box", RenderLayer.Opaque⟩,
   ⟨"maze22", "door", "box", RenderLayer.Opaque⟩,
   ⟨"maze23", "door", "box", RenderLayer.Opaque⟩,
   ⟨"maze24", "door", "box", RenderLayer.Opaque⟩,
   ⟨"treeSpritesRitem", "treeSprites", "points", RenderLayer.AlphaTestedTreeSprites⟩]

/-- The `ObjCBIndex` assignment of `ShapesApp::BuildRenderItems`: the first
item receives the explicit index 0 and every following item receives
`objCBIndex++` of a counter that starts at 1 — that is, successive indices
starting from the seed. -/
def assignObjCBIndices : List SceneEntry → Nat → List (SceneEntry × Nat)
  | [], _ => []
  | e :: rest, n => (e, n) :: assignObjCBIndices rest (n + 1)

/-- `ShapesApp::BuildRenderItems` as the list of items with their assigned
object-constant-buffer indices. -/
def BuildRenderItems : List (SceneEntry × Nat) :=
  assignObjCBIndices sceneEntries 0

/-- The buffer element counts of one `FrameResource`. -/
structure FrameResourceSizes where
  passCount : Nat
  objectCount : Nat
  materialCount : Nat
deriving DecidableEq

/-- `ShapesApp::BuildFrameResources`: `gNumFrameResources` frame resources,
each sized with 1 pass-constant record, `mAllRitems.size()` object-constant
records and `mMaterials.size()` material-constant records. -/
def BuildFrameResources (itemCount materialCount : Nat) : List FrameResourceSizes :=
  List.replicate gNumFrameResources
    { passCount := 1, objectCount := itemCount, materialCount := materialCount }

/-- The per-item effect of one `UpdateObjectCBs` pass on the item itself:
decrement the dirty counter when positive, otherwise leave the item alone. -/
def decItem (e : RenderItem) : RenderItem :=
  if e.NumFramesDirty > 0 then { e with NumFramesDirty := e.NumFramesDirty - 1 } else e

/-- The per-material effect of one `UpdateMaterialCBs` pass. -/
def decMat (m : Material) : Material :=
  if m.NumFramesDirty > 0 then { m with NumFramesDirty := m.NumFramesDirty - 1 } else m

/-- Three update cycles with no further mutation ("N subsequent update
cycles" for the ring size N = 3). -/
def threeCycles (invTrans : Mat4 → Mat4) (o1 o2 o3 : Nat) (s : AppState) : AppState :=
  updateCycleNoMutation invTrans o3
    (updateCycleNoMutation invTrans o2 (updateCycleNoMutation invTrans o1 s))

/-- A one-item sample render item used by concrete witnesses. -/
def sampleItem : RenderItem :=
  { ObjCBIndex := 0, Mat := bricks0 }

/-- A small concrete app state used by concrete witnesses: ring slot 0, one
freshly created render item and one freshly created material (both dirty
with counter 3), constant buffers initialised to fixed records. -/
def sampleState : AppState :=
  { currFrameResourceIndex := 0
    completedFence := 0
    currentFence := 0
    fences := fun _ => 0
    allRitems := [sampleItem]
    materials := [bricks0]
    objectCB := fun _ _ => ⟨Mat4.identity, Mat4.identity, Mat4.identity⟩
    materialCB := fun _ _ => packMaterialConstants stone0
    ritemLayer := fun _ => [] }

/-! ### Claim C7: contiguous object-constant indices and frame-resource sizing -/

/-- C7: after scene construction the `ObjCBIndex` values of the render items
are pairwise distinct and form the contiguous set `{0, ..., 50}` (51 items),
and `BuildFrameResources` creates 3 frame resources, each sized with 1
pass-constant record, 51 object-constant records and 9 material-constant
records — the final item and material counts. -/
theorem objCBIndices_contiguous_and_frame_resources_sized :
    BuildRenderItems.map Prod.snd = List.range 51
    ∧ (BuildRenderItems.map Prod.snd).Nodup
    ∧ BuildRenderItems.length = 51
    ∧ BuildMaterials.length = 9
    ∧ BuildFrameResources BuildRenderItems.length BuildMaterials.length
        = [⟨1, 51, 9⟩, ⟨1, 51, 9⟩, ⟨1, 51, 9⟩] := by
  refine ⟨by decide, by decide, by decide, rfl, by decide⟩

/-! ### Claim C10: layer population of the constructed scene -/

/-- C10: in the constructed scene (layers are never mutated afterwards) the
`Transparent` and `AlphaTested` layers are empty, every item other than the
tree-sprite item — including the water item and the toruses using the
`water0` material — lands in the `Opaque` layer, and the tree-sprite item is
the only member of `AlphaTestedTreeSprites`. -/
theorem transparent_and_alphaTested_layers_empty :
    sceneEntries.filter (fun e => e.layer == RenderLayer.Transparent) = []
    ∧ sceneEntries.filter (fun e => e.layer == RenderLayer.AlphaTested) = []
    ∧ (sceneEntries.filter
        (fun e => e.layer == RenderLayer.AlphaTestedTreeSprites)).map
          SceneEntry.itemName = ["treeSpritesRitem"]
    ∧ (∀ e ∈ sceneEntries, e.itemName ≠ "treeSpritesRitem" →
        e.layer = RenderLayer.Opaque)
    ∧ (∀ e ∈ sceneEntries, e.matName = "water0" → e.layer = RenderLayer.Opaque) := by
  refine ⟨by decide, by decide, by decide, by decide, by decide⟩

/-! ### Claim C4: descriptor-table slots match material insertion indices -/

/-- C4: for every material, its `DiffuseSrvHeapIndex` equals the insertion
index at which its texture's view descriptor is written by
`BuildDescriptorHeaps`, where descriptors are written in insertion order at
consecutive offsets advancing by one descriptor increment per entry —
`bricks0` at index 0 through `treeSprites` at index 8. -/
theorem material_descriptor_slot_matches_insertion_index
    (heapStart inc : Nat) (m : Material) (hm : m ∈ BuildMaterials) :
    (BuildDescriptorHeaps heapStart inc)[m.DiffuseSrvHeapIndex]?
      = some (materialTexture m.Name, heapStart + m.DiffuseSrvHeapIndex * inc) := by
  fin_cases hm <;>
    simp [BuildDescriptorHeaps, writeDescriptors, srvWriteOrder, materialTexture,
      bricks0, stone0, sand0, gutsy, water0, ice0, flag0, doorMat, treeSpritesMat] <;>
    ring

/-- Witness for C4 at the `treeSprites` material with a descriptor increment
of 32 and heap start 1000. -/
theorem material_descriptor_slot_witness :
    (BuildDescriptorHeaps 1000 32)[treeSpritesMat.DiffuseSrvHeapIndex]?
      = some (materialTexture treeSpritesMat.Name,
          1000 + treeSpritesMat.DiffuseSrvHeapIndex * 32) :=
  material_descriptor_slot_matches_insertion_index 1000 32 treeSpritesMat
    (by simp [BuildMaterials])

/-! ### Claim C1: ring advance, fence wait and allocator reset -/

/-- The wait condition of `Update` holds exactly when the slot's stored
fence is nonzero and the observed completion counter is still below it. -/
lemma mustWait_iff (fence observed : Nat) :
    mustWait fence observed = true ↔ fence ≠ 0 ∧ observed < fence := by
  simp [mustWait]

/-- After the wait of `Update` returns, either the slot was never used
(fence 0) or the completion counter has reached the slot's fence value. -/
lemma fence_le_waitResult (fence observed : Nat) :
    fence = 0 ∨ fence ≤ waitResult fence observed := by
  rcases Nat.eq_zero_or_pos fence with hz | hp
  · exact Or.inl hz
  · refine Or.inr ?_
    unfold waitResult
    by_cases h : mustWait fence observed = true
    · simp [h]
    · simp only [h, if_false, Bool.false_eq_true, if_neg]
      rw [mustWait_iff] at h
      push_neg at h
      exact h (by omega)

/-- C1: every frame, `Update` selects ring slot `(currentIndex + 1) % 3`;
the CPU blocks exactly when that slot's stored fence value is nonzero and
the completed counter is still below it; and the allocator reset issued by
`Draw` targets exactly that slot, in a state in which the slot's stored
fence is zero (never used) or has been observed completed. -/
theorem ring_advance_blocks_iff_fence_pending (invTrans : Mat4 → Mat4)
    (p : DrawParams) (dt : ℚ) (observed : Nat) (s : AppState) :
    (Update invTrans dt observed s).currFrameResourceIndex
        = (s.currFrameResourceIndex + 1) % 3
    ∧ (mustWait (s.fences ((s.currFrameResourceIndex + 1) % 3)) observed = true
        ↔ s.fences ((s.currFrameResourceIndex + 1) % 3) ≠ 0
            ∧ observed < s.fences ((s.currFrameResourceIndex + 1) % 3))
    ∧ (frame invTrans p dt observed s).2.allocatorResetSlot
        = (s.currFrameResourceIndex + 1) % 3
    ∧ ((frame invTrans p dt observed s).2.fenceAtReset = 0
        ∨ (frame invTrans p dt observed s).2.fenceAtReset
            ≤ (frame invTrans p dt observed s).2.completedAtReset) := by
  refine ⟨rfl, mustWait_iff _ _, rfl, ?_⟩
  exact fence_le_waitResult (s.fences ((s.currFrameResourceIndex + 1) % 3)) observed

/-! ### Claim C9: fence advance, storage and strictly increasing signals -/

/-- The per-frame signaled fence values of a frame sequence are the
successive values of the global counter. -/
lemma runFrames_signaledFence (invTrans : Mat4 → Mat4) (p : DrawParams)
    (inputs : List (ℚ × Nat)) (s : AppState) :
    ((runFrames invTrans p inputs s).2).map FrameLog.signaledFence
      = (List.range inputs.length).map fun k => s.currentFence + k + 1 := by
  induction inputs generalizing s with
  | nil => simp [runFrames]
  | cons hd tl ih =>
    obtain ⟨dt, o⟩ := hd
    rw [List.length_cons, List.range_succ_eq_map]
    simp only [runFrames, List.map_cons, List.map_map, ih]
    have h1 : (frame invTrans p dt o s).1.currentFence = s.currentFence + 1 := rfl
    have h2 : (frame invTrans p dt o s).2.signaledFence = s.currentFence + 1 := rfl
    rw [h1, h2]
    refine List.cons_eq_cons.mpr ⟨by omega, ?_⟩
    apply List.map_congr_left
    intro k _
    simp only [Function.comp_apply]
    omega

/-- C9: each `Draw` advances the global fence counter by exactly one, stores
the new value as the current ring slot's fence, and schedules the GPU-side
signal of that value; consequently the fence values signaled across
successive submissions are strictly increasing. -/
theorem submission_fences_strictly_increasing (invTrans : Mat4 → Mat4)
    (p : DrawParams) (dt : ℚ) (observed : Nat) (inputs : List (ℚ × Nat))
    (s : AppState) :
    (frame invTrans p dt observed s).1.currentFence = s.currentFence + 1
    ∧ (frame invTrans p dt observed s).2.signaledFence = s.currentFence + 1
    ∧ (frame invTrans p dt observed s).1.fences
        ((s.currFrameResourceIndex + 1) % 3) = s.currentFence + 1
    ∧ ((runFrames invTrans p inputs s).2).map FrameLog.signaledFence
        = (List.range inputs.length).map (fun k => s.currentFence + k + 1)
    ∧ (((runFrames invTrans p inputs s).2).map FrameLog.signaledFence).Pairwise
        (· < ·) := by
  refine ⟨rfl, rfl, ?_, runFrames_signaledFence invTrans p inputs s, ?_⟩
  · show (if (s.currFrameResourceIndex + 1) % gNumFrameResources
        = (s.currFrameResourceIndex + 1) % gNumFrameResources
        then s.currentFence + 1 else _) = s.currentFence + 1
    simp
  · rw [runFrames_signaledFence, List.pairwise_map]
    exact (List.pairwise_lt_range _).imp fun h => by omega

/-! ### Dirty-propagation lemmas for `UpdateObjectCBs` / `UpdateMaterialCBs` -/

/-- The item list returned by `UpdateObjectCBs` is the input list with every
dirty counter decremented once where positive. -/
lemma UpdateObjectCBs_fst (invTrans : Mat4 → Mat4) (items : List RenderItem)
    (buf : Nat → ObjectConstants) :
    (UpdateObjectCBs invTrans items buf).1 = items.map decItem := by
  induction items generalizing buf with
  | nil => rfl
  | cons e rest ih =>
    by_cases h : e.NumFramesDirty > 0 <;>
      simp [UpdateObjectCBs, decItem, h, ih]

/-- `UpdateObjectCBs` leaves a buffer offset alone when no dirty item owns
that offset. -/
lemma UpdateObjectCBs_snd_untouched (invTrans : Mat4 → Mat4)
    (items : List RenderItem) (buf : Nat → ObjectConstants) (j : Nat)
    (h : ∀ e ∈ items, e.ObjCBIndex = j → ¬ e.NumFramesDirty > 0) :
    (UpdateObjectCBs invTrans items buf).2 j = buf j := by
  induction items generalizing buf with
  | nil => rfl
  | cons e rest ih =>
    by_cases hd : e.NumFramesDirty > 0
    · have hne : e.ObjCBIndex ≠ j := fun hj => h e (by simp) hj hd
      simp only [UpdateObjectCBs, hd, if_pos]
      rw [ih _ fun x hx => h x (by simp [hx])]
      exact if_neg fun hj => hne (Eq.symm hj)
    · simp only [UpdateObjectCBs, hd, if_neg, not_false_iff]
      exact ih _ fun x hx => h x (by simp [hx])

/-- `UpdateObjectCBs` writes the packed constants of a dirty item at that
item's buffer offset, provided the items' offsets are pairwise distinct. -/
lemma UpdateObjectCBs_snd_write (invTrans : Mat4 → Mat4)
    (items : List RenderItem) (buf : Nat → ObjectConstants) (e : RenderItem)
    (hnd : (items.map RenderItem.ObjCBIndex).Nodup)
    (he : e ∈ items) (hd : e.NumFramesDirty > 0) :
    (UpdateObjectCBs invTrans items buf).2 e.ObjCBIndex
      = packObjectConstants invTrans e := by
  induction items generalizing buf with
  | nil => cases he
  | cons x rest ih =>
    rw [List.map_cons, List.nodup_cons] at hnd
    rcases List.mem_cons.mp he with rfl | hmem
    · simp only [UpdateObjectCBs, hd, if_pos]
      rw [UpdateObjectCBs_snd_untouched]
      · simp [copyData]
      · intro y hy hyj _
        exact hnd.1 (hyj ▸ List.mem_map_of_mem RenderItem.ObjCBIndex hy)
    · by_cases hx : x.NumFramesDirty > 0 <;>
        simp only [UpdateObjectCBs, hx, if_pos, if_neg, not_false_iff] <;>
        exact ih _ hnd.2 hmem

/-- The material list returned by `UpdateMaterialCBs` is the input list with
every dirty counter decremented once where positive. -/
lemma UpdateMaterialCBs_fst (mats : List Material) (buf : Nat → MaterialConstants) :
    (UpdateMaterialCBs mats buf).1 = mats.map decMat := by
  induction mats generalizing buf with
  | nil => rfl
  | cons m rest ih =>
    by_cases h : m.NumFramesDirty > 0 <;>
      simp [UpdateMaterialCBs, decMat, h, ih]

/-- `UpdateMaterialCBs` leaves a buffer offset alone when no dirty material
owns that offset. -/
lemma UpdateMaterialCBs_snd_untouched (mats : List Material)
    (buf : Nat → MaterialConstants) (j : Nat)
    (h : ∀ m ∈ mats, m.MatCBIndex = j → ¬ m.NumFramesDirty > 0) :
    (UpdateMaterialCBs mats buf).2 j = buf j := by
  induction mats generalizing buf with
  | nil => rfl
  | cons m rest ih =>
    by_cases hd : m.NumFramesDirty > 0
    · have hne : m.MatCBIndex ≠ j := fun hj => h m (by simp) hj hd
      simp only [UpdateMaterialCBs, hd, if_pos]
      rw [ih _ fun x hx => h x (by simp [hx])]
      exact if_neg fun hj => hne (Eq.symm hj)
    · simp only [UpdateMaterialCBs, hd, if_neg, not_false_iff]
      exact ih _ fun x hx => h x (by simp [hx])

/-- `UpdateMaterialCBs` writes the packed constants of a dirty material at
that material's buffer offset, provided the materials' offsets are pairwise
distinct. -/
lemma UpdateMaterialCBs_snd_write (mats : List Material)
    (buf : Nat → MaterialConstants) (m : Material)
    (hnd : (mats.map Material.MatCBIndex).Nodup)
    (hm : m ∈ mats) (hd : m.NumFramesDirty > 0) :
    (UpdateMaterialCBs mats buf).2 m.MatCBIndex = packMaterialConstants m := by
  induction mats generalizing buf with
  | nil => cases hm
  | cons x rest ih =>
    rw [List.map_cons, List.nodup_cons] at hnd
    rcases List.mem_cons.mp hm with rfl | hmem
    · simp only [UpdateMaterialCBs, hd, if_pos]
      rw [UpdateMaterialCBs_snd_untouched]
      · simp [copyData]
      · intro y hy hyj _
        exact hnd.1 (hyj ▸ List.mem_map_of_mem Material.MatCBIndex hy)
    · by_cases hx : x.NumFramesDirty > 0 <;>
        simp only [UpdateMaterialCBs, hx, if_pos, if_neg, not_false_iff] <;>
        exact ih _ hnd.2 hmem

/-! ### Claim C2: the record written for a dirty render item -/

/-- C2: for a render item with a positive dirty counter, one `UpdateObjectCBs`
pass writes — at offset `ObjCBIndex` of the current object constant buffer —
the record made of the transpose of the item's world matrix, the transpose of
its inverse-transpose, and the transpose of the item's texture transform,
and decrements the item's dirty counter by exactly one.  (`ObjCBIndex`
values are pairwise distinct in the constructed scene;
`MathHelper::InverseTranspose` is quantified as `invTrans`.) -/
theorem dirty_item_written_and_decremented (invTrans : Mat4 → Mat4)
    (items : List RenderItem) (buf : Nat → ObjectConstants) (k : Nat)
    (e : RenderItem) (hnd : (items.map RenderItem.ObjCBIndex).Nodup)
    (he : items[k]? = some e) (hd : e.NumFramesDirty > 0) :
    (UpdateObjectCBs invTrans items buf).2 e.ObjCBIndex
      = { World := e.World.transpose
          TWorld := (invTrans e.World).transpose
          TexTransform := e.TexTransform.transpose }
    ∧ (UpdateObjectCBs invTrans items buf).1[k]?
        = some { e with NumFramesDirty := e.NumFramesDirty - 1 } := by
  constructor
  · exact UpdateObjectCBs_snd_write invTrans items buf e hnd (List.getElem?_mem he) hd
  · rw [UpdateObjectCBs_fst, List.getElem?_map, he]
    simp [decItem, hd]

/-- Witness for C2: a two-item list in which the second item is dirty. -/
theorem dirty_item_written_witness :
    (([{ ObjCBIndex := 0, Mat := bricks0, NumFramesDirty := 0 },
       { ObjCBIndex := 1, Mat := stone0 }] : List RenderItem).map
        RenderItem.ObjCBIndex).Nodup
    ∧ ([{ ObjCBIndex := 0, Mat := bricks0, NumFramesDirty := 0 },
        { ObjCBIndex := 1, Mat := stone0 }] : List RenderItem)[1]?
        = some { ObjCBIndex := 1, Mat := stone0 }
    ∧ ({ ObjCBIndex := 1, Mat := stone0 } : RenderItem).NumFramesDirty > 0
    ∧ ((UpdateObjectCBs Mat4.transpose
        [{ ObjCBIndex := 0, Mat := bricks0, NumFramesDirty := 0 },
         { ObjCBIndex := 1, Mat := stone0 }] fun _ =>
          ⟨Mat4.identity, Mat4.identity, Mat4.identity⟩).2
          ({ ObjCBIndex := 1, Mat := stone0 } : RenderItem).ObjCBIndex
        = { World := Mat4.identity.transpose
            TWorld := (Mat4.transpose Mat4.identity).transpose
            TexTransform := Mat4.identity.transpose }
      ∧ (UpdateObjectCBs Mat4.transpose
          [{ ObjCBIndex := 0, Mat := bricks0, NumFramesDirty := 0 },
           { ObjCBIndex := 1, Mat := stone0 }] fun _ =>
            ⟨Mat4.identity, Mat4.identity, Mat4.identity⟩).1[1]?
          = some { ObjCBIndex := 1, Mat := stone0, NumFramesDirty := 3 - 1 }) :=
  ⟨by decide, rfl, by decide,
    dirty_item_written_and_decremented Mat4.transpose _ _ 1 _ (by decide) rfl
      (by decide)⟩

/-! ### Claim C8: clean entries are left unchanged -/

/-- C8: an update cycle re-uploads only changed data — for a render item and
a material whose dirty counters are zero, the corresponding entries of the
current ring slot's object and material constant buffers are left unchanged
by `UpdateObjectCBs` and `UpdateMaterialCBs` (buffer offsets being pairwise
distinct, as in the constructed scene). -/
theorem clean_entries_unchanged (invTrans : Mat4 → Mat4)
    (items : List RenderItem) (mats : List Material)
    (objBuf : Nat → ObjectConstants) (matBuf : Nat → MaterialConstants)
    (e : RenderItem) (m : Material)
    (hndO : (items.map RenderItem.ObjCBIndex).Nodup)
    (hndM : (mats.map Material.MatCBIndex).Nodup)
    (he : e ∈ items) (he0 : e.NumFramesDirty = 0)
    (hm : m ∈ mats) (hm0 : m.NumFramesDirty = 0) :
    (UpdateObjectCBs invTrans items objBuf).2 e.ObjCBIndex = objBuf e.ObjCBIndex
    ∧ (UpdateMaterialCBs mats matBuf).2 m.MatCBIndex = matBuf m.MatCBIndex := by
  constructor
  · refine UpdateObjectCBs_snd_untouched invTrans items objBuf e.ObjCBIndex ?_
    intro x hx hxj
    have : x = e := List.inj_on_of_nodup_map hndO hx he hxj
    simp [this, he0]
  · refine UpdateMaterialCBs_snd_untouched mats matBuf m.MatCBIndex ?_
    intro x hx hxj
    have : x = m := List.inj_on_of_nodup_map hndM hx hm hxj
    simp [this, hm0]

/-- Witness for C8: a clean item and a clean material each keep their buffer
entry. -/
theorem clean_entries_unchanged_witness :
    (([{ ObjCBIndex := 5, Mat := bricks0, NumFramesDirty := 0 }] :
        List RenderItem).map RenderItem.ObjCBIndex).Nodup
    ∧ (([{ bricks0 with NumFramesDirty := 0 }] : List Material).map
        Material.MatCBIndex).Nodup
    ∧ ({ ObjCBIndex := 5, Mat := bricks0, NumFramesDirty := 0 } :
        RenderItem).NumFramesDirty = 0
    ∧ ({ bricks0 with NumFramesDirty := 0 } : Material).NumFramesDirty = 0
    ∧ ((UpdateObjectCBs id [{ ObjCBIndex := 5, Mat := bricks0, NumFramesDirty := 0 }]
          fun _ => ⟨Mat4.identity, Mat4.identity, Mat4.identity⟩).2
          ({ ObjCBIndex := 5, Mat := bricks0, NumFramesDirty := 0 } :
            RenderItem).ObjCBIndex
        = (fun _ => (⟨Mat4.identity, Mat4.identity, Mat4.identity⟩ : ObjectConstants))
            ({ ObjCBIndex := 5, Mat := bricks0, NumFramesDirty := 0 } :
              RenderItem).ObjCBIndex
      ∧ (UpdateMaterialCBs [{ bricks0 with NumFramesDirty := 0 }]
          fun _ => packMaterialConstants stone0).2
          ({ bricks0 with NumFramesDirty := 0 } : Material).MatCBIndex
        = (fun _ => packMaterialConstants stone0)
            ({ bricks0 with NumFramesDirty := 0 } : Material).MatCBIndex) :=
  ⟨by decide, by decide, rfl, rfl,
    clean_entries_unchanged id _ _ _ _ _ _ (by decide) (by decide)
      (List.mem_singleton.mpr rfl) rfl (List.mem_singleton.mpr rfl) rfl⟩

/-! ### Claim C6: per-item constant-buffer addresses and draw arguments -/

/-- C6: for every item drawn by `DrawRenderItems`, the bound object-constant
address is the object buffer's base plus `ObjCBIndex` times the aligned
object stride, and the material-constant address is the material buffer's
base plus `MatCBIndex` times the aligned material stride — exactly, as long
as the 32-bit index-times-stride products do not wrap — after which the
indexed draw is issued with the item's stored `IndexCount`,
`StartIndexLocation` and `BaseVertexLocation` (and one instance). -/
theorem draw_addresses_and_arguments (p : DrawParams)
    (ritems : List RenderItem) (k : Nat) (ri : RenderItem)
    (hk : ritems[k]? = some ri)
    (hobj : ri.ObjCBIndex * p.objCBByteSize < uintMod)
    (hmat : ri.Mat.MatCBIndex * p.matCBByteSize < uintMod) :
    (DrawRenderItems p ritems)[k]?
      = some
        { texDescriptor :=
            p.srvHeapStart + ri.Mat.DiffuseSrvHeapIndex * p.cbvSrvDescriptorSize
          objCBAddress := p.objectCBBase + ri.ObjCBIndex * p.objCBByteSize
          matCBAddress := p.materialCBBase + ri.Mat.MatCBIndex * p.matCBByteSize
          indexCount := ri.IndexCount
          instanceCount := 1
          startIndexLocation := ri.StartIndexLocation
          baseVertexLocation := ri.BaseVertexLocation } := by
  rw [DrawRenderItems, List.getElem?_map, hk]
  simp [drawRenderItem, Nat.mod_eq_of_lt hobj, Nat.mod_eq_of_lt hmat]

/-- Witness for C6: a singleton item list with realistic strides. -/
theorem draw_addresses_witness :
    ([({ ObjCBIndex := 7, Mat := doorMat, IndexCount := 36,
         StartIndexLocation := 4, BaseVertexLocation := 2 } : RenderItem)] :
        List RenderItem)[0]?
      = some { ObjCBIndex := 7, Mat := doorMat, IndexCount := 36,
               StartIndexLocation := 4, BaseVertexLocation := 2 }
    ∧ ({ ObjCBIndex := 7, Mat := doorMat, IndexCount := 36,
         StartIndexLocation := 4, BaseVertexLocation := 2 } :
          RenderItem).ObjCBIndex * 256 < uintMod
    ∧ ({ ObjCBIndex := 7, Mat := doorMat, IndexCount := 36,
         StartIndexLocation := 4, BaseVertexLocation := 2 } :
          RenderItem).Mat.MatCBIndex * 256 < uintMod
    ∧ (DrawRenderItems ⟨4096, 32, 65536, 131072, 256, 256⟩
        [{ ObjCBIndex := 7, Mat := doorMat, IndexCount := 36,
           StartIndexLocation := 4, BaseVertexLocation := 2 }])[0]?
        = some
          { texDescriptor := 4096 +
              ({ ObjCBIndex := 7, Mat := doorMat, IndexCount := 36,
                 StartIndexLocation := 4, BaseVertexLocation := 2 } :
                  RenderItem).Mat.DiffuseSrvHeapIndex * 32
            objCBAddress := 65536 +
              ({ ObjCBIndex := 7, Mat := doorMat, IndexCount := 36,
                 StartIndexLocation := 4, BaseVertexLocation := 2 } :
                  RenderItem).ObjCBIndex * 256
            matCBAddress := 131072 +
              ({ ObjCBIndex := 7, Mat := doorMat, IndexCount := 36,
                 StartIndexLocation := 4, BaseVertexLocation := 2 } :
                  RenderItem).Mat.MatCBIndex * 256
            indexCount := 36
            instanceCount := 1
            startIndexLocation := 4
            baseVertexLocation := 2 } :=
  ⟨rfl, by decide, by decide,
    draw_addresses_and_arguments ⟨4096, 32, 65536, 131072, 256, 256⟩ _ 0 _ rfl
      (by decide) (by decide)⟩

/-! ### Claim C5: fixed layer draw order, no per-item sorting -/

/-- C5: for any population of the four layers, the frame's recorded draw
sequence is exactly the `Opaque` items first, then `AlphaTested`, then the
tree sprites, then `Transparent` last — each layer's items in their stored
order, with no per-item sorting.  Stated positionally: the command at
global position (preceding layers' lengths + `k`) is the draw of the `k`-th
item of the corresponding layer. -/
theorem layer_draw_order_fixed (p : DrawParams)
    (layer : RenderLayer → List RenderItem) :
    (recordFrameDraws p layer).length
      = (layer RenderLayer.Opaque).length + (layer RenderLayer.AlphaTested).length
        + (layer RenderLayer.AlphaTestedTreeSprites).length
        + (layer RenderLayer.Transparent).length
    ∧ (∀ k, k < (layer RenderLayer.Opaque).length →
        (recordFrameDraws p layer)[k]?
          = ((layer RenderLayer.Opaque)[k]?).map (drawRenderItem p))
    ∧ (∀ k, k < (layer RenderLayer.AlphaTested).length →
        (recordFrameDraws p layer)[(layer RenderLayer.Opaque).length + k]?
          = ((layer RenderLayer.AlphaTested)[k]?).map (drawRenderItem p))
    ∧ (∀ k, k < (layer RenderLayer.AlphaTestedTreeSprites).length →
        (recordFrameDraws p layer)[(layer RenderLayer.Opaque).length
            + (layer RenderLayer.AlphaTested).length + k]?
          = ((layer RenderLayer.AlphaTestedTreeSprites)[k]?).map (drawRenderItem p))
    ∧ (∀ k, k < (layer RenderLayer.Transparent).length →
        (recordFrameDraws p layer)[(layer RenderLayer.Opaque).length
            + (layer RenderLayer.AlphaTested).length
            + (layer RenderLayer.AlphaTestedTreeSprites).length + k]?
          = ((layer RenderLayer.Transparent)[k]?).map (drawRenderItem p)) := by
  refine ⟨?_, ?_, ?_, ?_, ?_⟩
  · simp [recordFrameDraws, DrawRenderItems]
    omega
  · intro k hk
    rw [recordFrameDraws, List.append_assoc, List.append_assoc,
      List.getElem?_append_left (by simp only [DrawRenderItems, List.length_map, List.length_append]; omega),
      DrawRenderItems, List.getElem?_map]
  · intro k hk
    rw [recordFrameDraws, List.append_assoc, List.append_assoc,
      List.getElem?_append_right (by simp only [DrawRenderItems, List.length_map, List.length_append]; omega),
      List.getElem?_append_left (by simp only [DrawRenderItems, List.length_map, List.length_append]; omega)]
    simp only [DrawRenderItems, List.length_map, List.getElem?_map,
      Nat.add_sub_cancel_left]
  · intro k hk
    rw [recordFrameDraws, List.append_assoc, List.append_assoc,
      List.getElem?_append_right (by simp only [DrawRenderItems, List.length_map, List.length_append]; omega),
      List.getElem?_append_right (by simp only [DrawRenderItems, List.length_map, List.length_append]; omega),
      List.getElem?_append_left (by simp only [DrawRenderItems, List.length_map, List.length_append]; omega)]
    simp only [DrawRenderItems, List.length_map, List.getElem?_map,
      Nat.add_sub_cancel_left]
    try (congr 2; omega)
  · intro k hk
    rw [recordFrameDraws, List.append_assoc, List.append_assoc,
      List.getElem?_append_right (by simp only [DrawRenderItems, List.length_map, List.length_append]; omega),
      List.getElem?_append_right (by simp only [DrawRenderItems, List.length_map, List.length_append]; omega),
      List.getElem?_append_right (by simp only [DrawRenderItems, List.length_map, List.length_append]; omega)]
    simp only [DrawRenderItems, List.length_map, List.getElem?_map,
      Nat.add_sub_cancel_left]
    try (congr 2; omega)

/-- Witness for C5 on a population with one item per layer: the draw
recorded right after the single opaque item is the alpha-tested one. -/
theorem layer_draw_order_witness :
    0 < ([({ ObjCBIndex := 0, Mat := bricks0 } : RenderItem)] : List RenderItem).length
    ∧ (recordFrameDraws ⟨0, 1, 0, 0, 256, 256⟩ fun _ =>
          [{ ObjCBIndex := 0, Mat := bricks0 }])[
        ((fun _ => [{ ObjCBIndex := 0, Mat := bricks0 }] :
            RenderLayer → List RenderItem) RenderLayer.Opaque).length + 0]?
        = (((fun _ => [{ ObjCBIndex := 0, Mat := bricks0 }] :
            RenderLayer → List RenderItem) RenderLayer.AlphaTested)[0]?).map
            (drawRenderItem ⟨0, 1, 0, 0, 256, 256⟩) :=
  ⟨by decide,
    (layer_draw_order_fixed ⟨0, 1, 0, 0, 256, 256⟩
      (fun _ => [{ ObjCBIndex := 0, Mat := bricks0 }])).2.2.1 0 (by decide)⟩

/-! ### Claim C3: mutation sets the dirty counter to 3 and three cycles
propagate the data into all three ring slots -/

/-- A no-mutation cycle advances the ring index by one, modulo 3. -/
lemma cycle_currIndex (invTrans : Mat4 → Mat4) (o : Nat) (s : AppState) :
    (updateCycleNoMutation invTrans o s).currFrameResourceIndex
      = (s.currFrameResourceIndex + 1) % gNumFrameResources :=
  rfl

/-- A no-mutation cycle maps `decMat` over the materials. -/
lemma cycle_materials (invTrans : Mat4 → Mat4) (o : Nat) (s : AppState) :
    (updateCycleNoMutation invTrans o s).materials = s.materials.map decMat :=
  UpdateMaterialCBs_fst s.materials _

/-- A no-mutation cycle maps `decItem` over the render items. -/
lemma cycle_allRitems (invTrans : Mat4 → Mat4) (o : Nat) (s : AppState) :
    (updateCycleNoMutation invTrans o s).allRitems = s.allRitems.map decItem :=
  UpdateObjectCBs_fst invTrans s.allRitems _

/-- The material buffer of each ring slot after a no-mutation cycle: the
slot the cycle advanced into receives the `UpdateMaterialCBs` writes, every
other slot is untouched. -/
lemma cycle_materialCB (invTrans : Mat4 → Mat4) (o : Nat) (s : AppState) (j : Nat) :
    (updateCycleNoMutation invTrans o s).materialCB j
      = if j = (s.currFrameResourceIndex + 1) % gNumFrameResources
        then (UpdateMaterialCBs s.materials
          (s.materialCB ((s.currFrameResourceIndex + 1) % gNumFrameResources))).2
        else s.materialCB j :=
  rfl

/-- The object buffer of each ring slot after a no-mutation cycle. -/
lemma cycle_objectCB (invTrans : Mat4 → Mat4) (o : Nat) (s : AppState) (j : Nat) :
    (updateCycleNoMutation invTrans o s).objectCB j
      = if j = (s.currFrameResourceIndex + 1) % gNumFrameResources
        then (UpdateObjectCBs invTrans s.allRitems
          (s.objectCB ((s.currFrameResourceIndex + 1) % gNumFrameResources))).2
        else s.objectCB j :=
  rfl

/-- `decMat` does not change a material's constant-buffer slot. -/
lemma decMat_MatCBIndex (m : Material) : (decMat m).MatCBIndex = m.MatCBIndex := by
  by_cases h : m.NumFramesDirty > 0 <;> simp [decMat, h]

/-- `decItem` does not change an item's constant-buffer slot. -/
lemma decItem_ObjCBIndex (e : RenderItem) : (decItem e).ObjCBIndex = e.ObjCBIndex := by
  by_cases h : e.NumFramesDirty > 0 <;> simp [decItem, h]

/-- A no-mutation cycle preserves the list of material buffer slots. -/
lemma cycle_material_indices (invTrans : Mat4 → Mat4) (o : Nat) (s : AppState) :
    (updateCycleNoMutation invTrans o s).materials.map Material.MatCBIndex
      = s.materials.map Material.MatCBIndex := by
  rw [cycle_materials, List.map_map]
  exact List.map_congr_left fun x _ => decMat_MatCBIndex x

/-- A no-mutation cycle preserves the list of object buffer slots. -/
lemma cycle_item_indices (invTrans : Mat4 → Mat4) (o : Nat) (s : AppState) :
    (updateCycleNoMutation invTrans o s).allRitems.map RenderItem.ObjCBIndex
      = s.allRitems.map RenderItem.ObjCBIndex := by
  rw [cycle_allRitems, List.map_map]
  exact List.map_congr_left fun x _ => decItem_ObjCBIndex x

/-- During a no-mutation cycle, a dirty material's packed constants are
written into the slot the ring advanced into, at the material's offset. -/
lemma cycle_writes_dirty_material (invTrans : Mat4 → Mat4) (o : Nat)
    (s : AppState) (m : Material)
    (hnd : (s.materials.map Material.MatCBIndex).Nodup)
    (hm : m ∈ s.materials) (hd : m.NumFramesDirty > 0) :
    (updateCycleNoMutation invTrans o s).materialCB
        ((s.currFrameResourceIndex + 1) % gNumFrameResources) m.MatCBIndex
      = packMaterialConstants m := by
  rw [cycle_materialCB, if_pos rfl]
  exact UpdateMaterialCBs_snd_write s.materials _ m hnd hm hd

/-- During a no-mutation cycle, a dirty item's packed constants are written
into the slot the ring advanced into, at the item's offset. -/
lemma cycle_writes_dirty_item (invTrans : Mat4 → Mat4) (o : Nat)
    (s : AppState) (e : RenderItem)
    (hnd : (s.allRitems.map RenderItem.ObjCBIndex).Nodup)
    (he : e ∈ s.allRitems) (hd : e.NumFramesDirty > 0) :
    (updateCycleNoMutation invTrans o s).objectCB
        ((s.currFrameResourceIndex + 1) % gNumFrameResources) e.ObjCBIndex
      = packObjectConstants invTrans e := by
  rw [cycle_objectCB, if_pos rfl]
  exact UpdateObjectCBs_snd_write invTrans s.allRitems _ e hnd he hd

/-- Every mutation site in `AnimateMaterials` (the only mutation of item or
material constants in the program) sets the touched material's dirty counter
to exactly `gNumFrameResources`. -/
lemma animate_sets_dirty_to_ring_size (dt : ℚ) (mats : List Material) :
    ∀ m ∈ AnimateMaterials dt mats,
      m.Name = "water0" ∨ m.Name = "gutsy" →
        m.NumFramesDirty = gNumFrameResources := by
  intro m hm hname
  obtain ⟨x, hx, rfl⟩ := List.mem_map.mp hm
  by_cases h1 : x.Name = "water0"
  · simp [h1, animateWaterMat]
  · by_cases h2 : x.Name = "gutsy"
    · simp [h1, h2, animateGutsyMat]
    · rw [if_neg h1, if_neg h2] at hname ⊢
      rcases hname with h | h
      · exact absurd h h1
      · exact absurd h h2

/-- Ring slots the cycle did not advance into keep their material buffer. -/
lemma cycle_materialCB_untouched (invTrans : Mat4 → Mat4) (o : Nat)
    (s : AppState) (j : Nat)
    (h : j ≠ (s.currFrameResourceIndex + 1) % gNumFrameResources) :
    (updateCycleNoMutation invTrans o s).materialCB j = s.materialCB j := by
  rw [cycle_materialCB, if_neg h]

/-- Ring slots the cycle did not advance into keep their object buffer. -/
lemma cycle_objectCB_untouched (invTrans : Mat4 → Mat4) (o : Nat)
    (s : AppState) (j : Nat)
    (h : j ≠ (s.currFrameResourceIndex + 1) % gNumFrameResources) :
    (updateCycleNoMutation invTrans o s).objectCB j = s.objectCB j := by
  rw [cycle_objectCB, if_neg h]

/-- Decrementing the dirty counter does not change the packed material
record. -/
lemma packMaterialConstants_decMat (m : Material) :
    packMaterialConstants (decMat m) = packMaterialConstants m := by
  by_cases h : m.NumFramesDirty > 0 <;> simp [decMat, h, packMaterialConstants]

/-- Decrementing the dirty counter does not change the packed object
record. -/
lemma packObjectConstants_decItem (invTrans : Mat4 → Mat4) (e : RenderItem) :
    packObjectConstants invTrans (decItem e) = packObjectConstants invTrans e := by
  by_cases h : e.NumFramesDirty > 0 <;> simp [decItem, h, packObjectConstants]

/-- Three decrements take a counter of 3 to 0. -/
lemma decMat_cube (m : Material) (h : m.NumFramesDirty = 3) :
    decMat (decMat (decMat m)) = { m with NumFramesDirty := 0 } := by
  simp [decMat, h]

/-- Three decrements take a counter of 3 to 0. -/
lemma decItem_cube (e : RenderItem) (h : e.NumFramesDirty = 3) :
    decItem (decItem (decItem e)) = { e with NumFramesDirty := 0 } := by
  simp [decItem, h]

/-- Material propagation: starting with a dirty counter of 3, three
no-mutation cycles bring the counter to 0 and leave the material's packed
constants in all three ring slots' material buffers. -/
lemma threeCycles_material_propagation (invTrans : Mat4 → Mat4)
    (o1 o2 o3 : Nat) (s : AppState) (k : Nat) (m : Material)
    (hnd : (s.materials.map Material.MatCBIndex).Nodup)
    (hm : s.materials[k]? = some m) (h3 : m.NumFramesDirty = 3) :
    (threeCycles invTrans o1 o2 o3 s).materials[k]?
        = some { m with NumFramesDirty := 0 }
    ∧ ∀ slot, slot < 3 →
        (threeCycles invTrans o1 o2 o3 s).materialCB slot m.MatCBIndex
          = packMaterialConstants m := by
  have hg : gNumFrameResources = 3 := rfl
  have hmem : m ∈ s.materials := List.getElem?_mem hm
  constructor
  · rw [threeCycles, cycle_materials, cycle_materials, cycle_materials,
      List.getElem?_map, List.getElem?_map, List.getElem?_map, hm]
    simp only [Option.map_some']
    exact congrArg some (decMat_cube m h3)
  · intro slot hslot
    -- the slot written by each of the three cycles
    have hi1 : (updateCycleNoMutation invTrans o1 s).currFrameResourceIndex
        = (s.currFrameResourceIndex + 1) % 3 := by
      rw [cycle_currIndex, hg]
    have hi2 : (updateCycleNoMutation invTrans o2
          (updateCycleNoMutation invTrans o1 s)).currFrameResourceIndex
        = ((s.currFrameResourceIndex + 1) % 3 + 1) % 3 := by
      rw [cycle_currIndex, hi1, hg]
    -- cycle 1 writes the packed record into slot (i + 1) % 3
    have ha : (updateCycleNoMutation invTrans o1 s).materialCB
        ((s.currFrameResourceIndex + 1) % 3) m.MatCBIndex
        = packMaterialConstants m := by
      have := cycle_writes_dirty_material invTrans o1 s m hnd hmem (by omega)
      rwa [hg] at this
    -- facts about the state after cycle 1
    have hmem1 : decMat m ∈ (updateCycleNoMutation invTrans o1 s).materials := by
      rw [cycle_materials]
      exact List.mem_map_of_mem decMat hmem
    have hnd1 : ((updateCycleNoMutation invTrans o1 s).materials.map
        Material.MatCBIndex).Nodup := by
      rw [cycle_material_indices]
      exact hnd
    have hd1 : (decMat m).NumFramesDirty = 2 := by simp [decMat, h3]
    -- cycle 2 writes the packed record into slot (i + 2) % 3
    have hb : (updateCycleNoMutation invTrans o2
          (updateCycleNoMutation invTrans o1 s)).materialCB
        (((s.currFrameResourceIndex + 1) % 3 + 1) % 3) m.MatCBIndex
        = packMaterialConstants m := by
      have := cycle_writes_dirty_material invTrans o2
        (updateCycleNoMutation invTrans o1 s) (decMat m) hnd1 hmem1 (by omega)
      rwa [hg, hi1, decMat_MatCBIndex, packMaterialConstants_decMat] at this
    -- facts about the state after cycle 2
    have hmem2 : decMat (decMat m)
        ∈ (updateCycleNoMutation invTrans o2
            (updateCycleNoMutation invTrans o1 s)).materials := by
      rw [cycle_materials]
      exact List.mem_map_of_mem decMat hmem1
    have hnd2 : ((updateCycleNoMutation invTrans o2
          (updateCycleNoMutation invTrans o1 s)).materials.map
        Material.MatCBIndex).Nodup := by
      rw [cycle_material_indices]
      exact hnd1
    have hd2 : (decMat (decMat m)).NumFramesDirty = 1 := by
      simp [decMat, h3]
    -- cycle 3 writes the packed record into slot (i + 3) % 3
    have hc : (threeCycles invTrans o1 o2 o3 s).materialCB
        ((((s.currFrameResourceIndex + 1) % 3 + 1) % 3 + 1) % 3) m.MatCBIndex
        = packMaterialConstants m := by
      have := cycle_writes_dirty_material invTrans o3
        (updateCycleNoMutation invTrans o2 (updateCycleNoMutation invTrans o1 s))
        (decMat (decMat m)) hnd2 hmem2 (by omega)
      rwa [hg, hi2, decMat_MatCBIndex, decMat_MatCBIndex,
        packMaterialConstants_decMat, packMaterialConstants_decMat] at this
    -- the three written slots cover every slot below 3
    rcases (by omega :
        slot = (s.currFrameResourceIndex + 1) % 3
        ∨ slot = ((s.currFrameResourceIndex + 1) % 3 + 1) % 3
        ∨ slot = (((s.currFrameResourceIndex + 1) % 3 + 1) % 3 + 1) % 3) with
      h | h | h
    · rw [threeCycles, cycle_materialCB_untouched _ _ _ _ (by rw [hi2, hg]; omega),
        cycle_materialCB_untouched _ _ _ _ (by rw [hi1, hg]; omega), h]
      exact ha
    · rw [threeCycles, cycle_materialCB_untouched _ _ _ _ (by rw [hi2, hg]; omega), h]
      exact hb
    · rw [h]
      exact hc

/-- Object propagation: starting with a dirty counter of 3, three
no-mutation cycles bring the counter to 0 and leave the item's packed
constants in all three ring slots' object buffers. -/
lemma threeCycles_object_propagation (invTrans : Mat4 → Mat4)
    (o1 o2 o3 : Nat) (s : AppState) (j : Nat) (e : RenderItem)
    (hnd : (s.allRitems.map RenderItem.ObjCBIndex).Nodup)
    (he : s.allRitems[j]? = some e) (h3 : e.NumFramesDirty = 3) :
    (threeCycles invTrans o1 o2 o3 s).allRitems[j]?
        = some { e with NumFramesDirty := 0 }
    ∧ ∀ slot, slot < 3 →
        (threeCycles invTrans o1 o2 o3 s).objectCB slot e.ObjCBIndex
          = packObjectConstants invTrans e := by
  have hg : gNumFrameResources = 3 := rfl
  have hmem : e ∈ s.allRitems := List.getElem?_mem he
  constructor
  · rw [threeCycles, cycle_allRitems, cycle_allRitems, cycle_allRitems,
      List.getElem?_map, List.getElem?_map, List.getElem?_map, he]
    simp only [Option.map_some']
    exact congrArg some (decItem_cube e h3)
  · intro slot hslot
    have hi1 : (updateCycleNoMutation invTrans o1 s).currFrameResourceIndex
        = (s.currFrameResourceIndex + 1) % 3 := by
      rw [cycle_currIndex, hg]
    have hi2 : (updateCycleNoMutation invTrans o2
          (updateCycleNoMutation invTrans o1 s)).currFrameResourceIndex
        = ((s.currFrameResourceIndex + 1) % 3 + 1) % 3 := by
      rw [cycle_currIndex, hi1, hg]
    have ha : (updateCycleNoMutation invTrans o1 s).objectCB
        ((s.currFrameResourceIndex + 1) % 3) e.ObjCBIndex
        = packObjectConstants invTrans e := by
      have := cycle_writes_dirty_item invTrans o1 s e hnd hmem (by omega)
      rwa [hg] at this
    have hmem1 : decItem e ∈ (updateCycleNoMutation invTrans o1 s).allRitems := by
      rw [cycle_allRitems]
      exact List.mem_map_of_mem decItem hmem
    have hnd1 : ((updateCycleNoMutation invTrans o1 s).allRitems.map
        RenderItem.ObjCBIndex).Nodup := by
      rw [cycle_item_indices]
      exact hnd
    have hd1 : (decItem e).NumFramesDirty = 2 := by simp [decItem, h3]
    have hb : (updateCycleNoMutation invTrans o2
          (updateCycleNoMutation invTrans o1 s)).objectCB
        (((s.currFrameResourceIndex + 1) % 3 + 1) % 3) e.ObjCBIndex
        = packObjectConstants invTrans e := by
      have := cycle_writes_dirty_item invTrans o2
        (updateCycleNoMutation invTrans o1 s) (decItem e) hnd1 hmem1 (by omega)
      rwa [hg, hi1, decItem_ObjCBIndex, packObjectConstants_decItem] at this
    have hmem2 : decItem (decItem e)
        ∈ (updateCycleNoMutation invTrans o2
            (updateCycleNoMutation invTrans o1 s)).allRitems := by
      rw [cycle_allRitems]
      exact List.mem_map_of_mem decItem hmem1
    have hnd2 : ((updateCycleNoMutation invTrans o2
          (updateCycleNoMutation invTrans o1 s)).allRitems.map
        RenderItem.ObjCBIndex).Nodup := by
      rw [cycle_item_indices]
      exact hnd1
    have hd2 : (decItem (decItem e)).NumFramesDirty = 1 := by
      simp [decItem, h3]
    have hc : (threeCycles invTrans o1 o2 o3 s).objectCB
        ((((s.currFrameResourceIndex + 1) % 3 + 1) % 3 + 1) % 3) e.ObjCBIndex
        = packObjectConstants invTrans e := by
      have := cycle_writes_dirty_item invTrans o3
        (updateCycleNoMutation invTrans o2 (updateCycleNoMutation invTrans o1 s))
        (decItem (decItem e)) hnd2 hmem2 (by omega)
      rwa [hg, hi2, decItem_ObjCBIndex, decItem_ObjCBIndex,
        packObjectConstants_decItem, packObjectConstants_decItem] at this
    rcases (by omega :
        slot = (s.currFrameResourceIndex + 1) % 3
        ∨ slot = ((s.currFrameResourceIndex + 1) % 3 + 1) % 3
        ∨ slot = (((s.currFrameResourceIndex + 1) % 3 + 1) % 3 + 1) % 3) with
      h | h | h
    · rw [threeCycles, cycle_objectCB_untouched _ _ _ _ (by rw [hi2, hg]; omega),
        cycle_objectCB_untouched _ _ _ _ (by rw [hi1, hg]; omega), h]
      exact ha
    · rw [threeCycles, cycle_objectCB_untouched _ _ _ _ (by rw [hi2, hg]; omega), h]
      exact hb
    · rw [h]
      exact hc

/-- C3: (a) any mutation of a material's constants (each of the two
`AnimateMaterials` mutation sites) sets its dirty counter to exactly
N = 3 = `gNumFrameResources`; (b) starting from a state in which an item
and a material were just mutated (dirty counter 3, buffer slots pairwise
distinct as in the constructed scene), after 3 update cycles with no further
mutation the counters are back to 0 and all 3 ring slots' object and
material buffers hold the mutated data at the respective offsets. -/
theorem mutation_dirty_three_then_propagated_to_all_slots
    (invTrans : Mat4 → Mat4) (dt : ℚ) (mats0 : List Material) (s : AppState)
    (k j o1 o2 o3 : Nat) (m : Material) (e : RenderItem)
    (hndM : (s.materials.map Material.MatCBIndex).Nodup)
    (hm : s.materials[k]? = some m)
    (hm3 : m.NumFramesDirty = gNumFrameResources)
    (hndO : (s.allRitems.map RenderItem.ObjCBIndex).Nodup)
    (he : s.allRitems[j]? = some e)
    (he3 : e.NumFramesDirty = gNumFrameResources) :
    (∀ m' ∈ AnimateMaterials dt mats0,
      m'.Name = "water0" ∨ m'.Name = "gutsy" →
        m'.NumFramesDirty = gNumFrameResources)
    ∧ (threeCycles invTrans o1 o2 o3 s).materials[k]?
        = some { m with NumFramesDirty := 0 }
    ∧ (∀ slot, slot < gNumFrameResources →
        (threeCycles invTrans o1 o2 o3 s).materialCB slot m.MatCBIndex
          = packMaterialConstants m)
    ∧ (threeCycles invTrans o1 o2 o3 s).allRitems[j]?
        = some { e with NumFramesDirty := 0 }
    ∧ (∀ slot, slot < gNumFrameResources →
        (threeCycles invTrans o1 o2 o3 s).objectCB slot e.ObjCBIndex
          = packObjectConstants invTrans e) := by
  obtain ⟨hmk, hmslots⟩ :=
    threeCycles_material_propagation invTrans o1 o2 o3 s k m hndM hm hm3
  obtain ⟨hek, heslots⟩ :=
    threeCycles_object_propagation invTrans o1 o2 o3 s j e hndO he he3
  exact ⟨animate_sets_dirty_to_ring_size dt mats0, hmk, hmslots, hek, heslots⟩

/-- Witness for C3 on the sample state: after three quiet cycles the dirty
counters of the sample material and item are 0 and every ring slot holds
their packed constants. -/
theorem mutation_dirty_three_witness :
    (sampleState.materials.map Material.MatCBIndex).Nodup
    ∧ sampleState.materials[0]? = some bricks0
    ∧ bricks0.NumFramesDirty = gNumFrameResources
    ∧ (sampleState.allRitems.map RenderItem.ObjCBIndex).Nodup
    ∧ sampleState.allRitems[0]? = some sampleItem
    ∧ sampleItem.NumFramesDirty = gNumFrameResources
    ∧ ((∀ m' ∈ AnimateMaterials 1 [water0],
          m'.Name = "water0" ∨ m'.Name = "gutsy" →
            m'.NumFramesDirty = gNumFrameResources)
      ∧ (threeCycles id 0 0 0 sampleState).materials[0]?
          = some { bricks0 with NumFramesDirty := 0 }
      ∧ (∀ slot, slot < gNumFrameResources →
          (threeCycles id 0 0 0 sampleState).materialCB slot bricks0.MatCBIndex
            = packMaterialConstants bricks0)
      ∧ (threeCycles id 0 0 0 sampleState).allRitems[0]?
          = some { sampleItem with NumFramesDirty := 0 }
      ∧ (∀ slot, slot < gNumFrameResources →
          (threeCycles id 0 0 0 sampleState).objectCB slot sampleItem.ObjCBIndex
            = packObjectConstants id sampleItem)) :=
  ⟨by decide, rfl, rfl, by decide, rfl, rfl,
    mutation_dirty_three_then_propagated_to_all_slots id 1 [water0] sampleState
      0 0 0 0 0 bricks0 sampleItem (by decide) rfl rfl (by decide) rfl rfl⟩

end ShapesApp
